import Mathlib

/-!
Verification of the resilient task-consumption and self-healing engine of the
`devart-agent-template` SDK (`sdk/agent_sdk.py`), against its natural-language
specification.  The Python code is shallowly embedded: every function below is a
direct translation of the corresponding method of `AgentSDK`; external
collaborators (the broker channel, the HTTP task store, the knowledge store, the
`json.loads` library call and the caller-supplied task callback) are passed in
as explicit oracles, and side effects (channel actions, HTTP report calls,
Solution-Ledger mutation, callback invocations) are returned as explicit data.
-/

set_option autoImplicit false

namespace DevArt

/-- A JSON value, as produced by Python `json.loads`.  Numbers are rationals
(covering both Python `int` and `float` payload values exactly). -/
inductive Json where
  | null
  | boolean (b : Bool)
  | number (q : ℚ)
  | str (s : String)
  | arr (elems : List Json)
  | obj (fields : List (String × Json))

/-- Python truthiness (`if delay_until:` etc.) of a JSON-decoded value. -/
def Json.truthy : Json → Bool
  | .null => false
  | .boolean b => b
  | .number q => q != 0
  | .str s => s != ""
  | .arr l => !l.isEmpty
  | .obj f => !f.isEmpty

/-- Values Python can order-compare against a float: numbers, and booleans
(which are integers in Python).  Anything else raises `TypeError`. -/
def Json.asComparableNum : Json → Option ℚ
  | .number q => some q
  | .boolean b => some (if b then 1 else 0)
  | _ => none

/-- Python `dict.get(k)` on the field list of a JSON object.  A key stored with
JSON `null` is indistinguishable from an absent key (both give Python `None`),
so both map to `none`. -/
def pyGet (fields : List (String × Json)) (k : String) : Option Json :=
  match fields.lookup k with
  | some Json.null => none
  | v => v

/-- The slice of a task dictionary the engine reads: `task.get('id')` and
`task.get('last_error', 'Unknown error')`.  `none` models an absent key. -/
structure Task where
  id : Option String
  lastError : Option String

/-- A knowledge-store record, as read by the engine: `solution.get('id')`,
`solution.get('content')`, `solution.get('source')`. -/
structure Solution where
  id : Option String
  content : Option String
  source : Option String

/-- One record of the Solution Ledger: the dictionary
`{'solution_id': …, 'timestamp': time.time(), 'content': …}` built by
`apply_solution`. -/
structure SolutionAttempt where
  solutionId : Option String
  timestamp : ℚ
  content : Option String

/-- The Solution Ledger `self.solution_attempts`, viewed as the sequence of
attempts per task key (an absent dictionary entry reads as the empty
sequence). -/
def Ledger : Type := Option String → List SolutionAttempt

/-- The observable side effects of one engine operation: `report_error` calls,
`query_knowledge_base` calls (query string, threshold, limit),
`_report_solution_application` calls (task id, solution id, success flag),
number of task-callback invocations, and the Solution Ledger afterwards. -/
structure Effects where
  reportedErrors : List (Option String × String)
  kbQueries : List (String × ℚ × ℕ)
  solutionReports : List (Option String × Option String × Bool)
  callbackCalls : ℕ
  ledger : Ledger

/-- Effects of an operation that performed no SDK call, with the ledger it
started from. -/
def Effects.base (L : Ledger) : Effects :=
  { reportedErrors := [], kbQueries := [], solutionReports := [],
    callbackCalls := 0, ledger := L }

/-- The caller-supplied task callback.  Python may give a different outcome on
each invocation, so the oracle maps the invocation index (0 = first call inside
one `_execute_task_with_self_healing`) to either a returned boolean or the text
of a raised exception. -/
def Callback : Type := ℕ → Except String Bool

/-- The external knowledge store behind `query_knowledge_base`: the list the
wrapper returns for a query string (the wrapper itself returns `[]` on any
transport error, so the oracle already covers that case). -/
def KB : Type := String → List Solution

/-- `task.get('last_error', 'Unknown error')` as read by
`_attempt_self_healing`. -/
def lastErrorOf (task : Task) : String := task.lastError.getD "Unknown error"

/-- Embeds `AgentSDK.apply_solution`: ensure a ledger entry exists for the task
key, append the attempt record, report the application with `success=True`, and
return `True`.  Result: (new ledger, solution reports made, returned bool). -/
def applySolution (L : Ledger) (now : ℚ) (taskId : Option String)
    (solution : Solution) : Ledger × List (Option String × Option String × Bool) × Bool :=
  let attempt : SolutionAttempt :=
    { solutionId := solution.id, timestamp := now, content := solution.content }
  let L' : Ledger := fun k => if k = taskId then L taskId ++ [attempt] else L k
  (L', [(taskId, solution.id, true)], true)

/-- Embeds `AgentSDK._attempt_self_healing`: query the knowledge base with
`task.get('last_error', 'Unknown error')` (wrapper defaults threshold 0.7,
limit 10); on an empty result return false; otherwise apply the first solution
and, if applying succeeded, re-invoke the callback (invocation index 1) and
return its boolean outcome, with a raised exception giving false. -/
def attemptSelfHealing (kb : KB) (cb : Callback) (L : Ledger) (now : ℚ)
    (task : Task) : Bool × Effects :=
  let lastError := lastErrorOf task
  match kb lastError with
  | [] =>
    (false, { reportedErrors := [], kbQueries := [(lastError, 7/10, 10)],
              solutionReports := [], callbackCalls := 0, ledger := L })
  | best :: _ =>
    let applied := applySolution L now task.id best
    if applied.2.2 then
      match cb 1 with
      | .ok b =>
        (b, { reportedErrors := [], kbQueries := [(lastError, 7/10, 10)],
              solutionReports := applied.2.1, callbackCalls := 1,
              ledger := applied.1 })
      | .error _ =>
        (false, { reportedErrors := [], kbQueries := [(lastError, 7/10, 10)],
                  solutionReports := applied.2.1, callbackCalls := 1,
                  ledger := applied.1 })
    else
      (false, { reportedErrors := [], kbQueries := [(lastError, 7/10, 10)],
                solutionReports := applied.2.1, callbackCalls := 0,
                ledger := applied.1 })

/-- Embeds `AgentSDK._execute_task_with_self_healing`: invoke the callback
(invocation index 0); on `True` succeed; on `False` go straight to healing; on
a raised exception report its text via `report_error(task.get('id'), str(e))`
and then heal. -/
def executeTaskWithSelfHealing (kb : KB) (cb : Callback) (L : Ledger) (now : ℚ)
    (task : Task) : Bool × Effects :=
  match cb 0 with
  | .ok true => (true, { Effects.base L with callbackCalls := 1 })
  | .ok false =>
    let healed := attemptSelfHealing kb cb L now task
    (healed.1, { healed.2 with callbackCalls := healed.2.callbackCalls + 1 })
  | .error e =>
    let healed := attemptSelfHealing kb cb L now task
    (healed.1,
     { healed.2 with
        reportedErrors := (task.id, e) :: healed.2.reportedErrors,
        callbackCalls := healed.2.callbackCalls + 1 })

/-- The outcome of the HTTP GET performed by `get_task_details`: a response
with a status code and (for responses whose body parses as a task dictionary)
the parsed task, or a transport-level `RequestException`.  A 200 response whose
body is not valid JSON is `response 200 none`: `response.json()` then raises
`requests.exceptions.JSONDecodeError`, a `RequestException`, inside the `try`
block, so it is caught like a transport error. -/
inductive HttpResult where
  | response (status : ℕ) (body : Option Task)
  | transportError (msg : String)

/-- Embeds `AgentSDK.get_task_details`: return the parsed body on a 200 status
and `None` on any other status or on a caught `RequestException`.  The function
is total: no case raises to the caller. -/
def getTaskDetails (r : HttpResult) : Option Task :=
  match r with
  | .response status body => if status = 200 then body else none
  | .transportError _ => none

/-- What `json.loads` did with the decoded message text: produced a JSON value,
or raised `json.JSONDecodeError`. -/
inductive ParseResult where
  | ok (v : Json)
  | jsonDecodeError

/-- Result of the envelope-interpretation step of `on_message`: the task key
passed to `get_task_details` together with the raw `delayUntil` value, or the
`AttributeError` raised when `json.loads` returned a non-dict value (a list,
number, boolean or string has no `.get` method), which the
`except json.JSONDecodeError` clause does not catch. -/
inductive DecodeResult where
  | ok (taskKey : Option Json) (delayUntil : Option Json)
  | attributeError

/-- Embeds lines 66–101 of `on_message`: parse the text as JSON; on a dict,
read `taskId` and `delayUntil` with `.get`; on `json.JSONDecodeError`, use the
whole decoded text as a bare task identifier with no delay; on any other JSON
value, `.get('taskId')` raises `AttributeError`. -/
def decodeEnvelope (text : String) (parsed : ParseResult) : DecodeResult :=
  match parsed with
  | .jsonDecodeError => .ok (some (.str text)) none
  | .ok (.obj fields) => .ok (pyGet fields "taskId") (pyGet fields "delayUntil")
  | .ok _ => .attributeError

/-- Decision of the delay check of `on_message`: fall through to normal
processing, re-publish with the given whole-millisecond delay and discard the
original, or raise `TypeError` (a truthy non-numeric `delayUntil` compared
against a float). -/
inductive DelayDecision where
  | proceed
  | republish (remaining : ℤ)
  | typeError

/-- Embeds the delay check `if delay_until and delay_until > time.time() * 1000`
of `on_message`, with `now` the clock in seconds, so the millisecond clock is
`1000 * now`.  `remaining = int(delay_until - time.time() * 1000)` truncates;
on the branch where it is computed the argument is positive, so truncation is
`Int.floor`.  When `0 < remaining` fails, the code falls through to normal
processing (there is no `else`). -/
def delayGate (delayUntil : Option Json) (now : ℚ) : DelayDecision :=
  match delayUntil with
  | none => .proceed
  | some v =>
    if v.truthy then
      match v.asComparableNum with
      | none => .typeError
      | some d =>
        if 1000 * now < d then
          let remaining : ℤ := ⌊d - 1000 * now⌋
          if 0 < remaining then .republish remaining else .proceed
        else .proceed
    else .proceed

/-- An action `on_message` performs on the broker channel, in order. -/
inductive ChanAct where
  | publish (routingKey : String) (body : String) (xDelay : ℤ) (persistent : Bool)
  | ack
  | nackRequeue
  | nackNoRequeue
deriving DecidableEq

/-- How the handler terminates: normal return, or an exception escaping it. -/
inductive HandlerOutcome where
  | completed
  | raised (err : String)
deriving DecidableEq

/-- The exception that actually escapes `on_message` when its
`except Exception` clause runs: the clause evaluates `trace.Status(...)`, but
the module never imports the name `trace`, so the clause itself raises
`NameError` before reaching its `basic_nack` call. -/
def nameErrorMsg : String := "NameError: name trace is not defined"

/-- Embeds the `on_message` handler of `start_consuming` (one delivery):
check the running flag, interpret the envelope, gate on `delayUntil`
(re-publishing the identical body to the same routing key with an `x-delay`
header and nacking without requeue when a whole-millisecond delay remains),
resolve the task via the `fetch` oracle (the HTTP layer behind
`get_task_details`), run the Self-Healing Executor, and ack on success or nack
with requeue on failure or failed resolution.  Any exception raised inside the
`try` block reaches the `except` clause, which itself raises `NameError`
(see `nameErrorMsg`), so the handler then terminates without any channel
action. -/
def onMessage (running : Bool) (routingKey : String) (text : String)
    (parsed : ParseResult) (fetch : Option Json → Option Task) (kb : KB)
    (cb : Callback) (L : Ledger) (now : ℚ) :
    HandlerOutcome × List ChanAct × Effects :=
  if !running then (.completed, [], Effects.base L)
  else
    match decodeEnvelope text parsed with
    | .attributeError => (.raised nameErrorMsg, [], Effects.base L)
    | .ok taskKey delayUntil =>
      match delayGate delayUntil now with
      | .typeError => (.raised nameErrorMsg, [], Effects.base L)
      | .republish remaining =>
        (.completed, [.publish routingKey text remaining true, .nackNoRequeue],
         Effects.base L)
      | .proceed =>
        match fetch taskKey with
        | none => (.completed, [.nackRequeue], Effects.base L)
        | some task =>
          let r := executeTaskWithSelfHealing kb cb L now task
          (.completed, [if r.1 then ChanAct.ack else ChanAct.nackRequeue], r.2)

/-- In every branch, `_attempt_self_healing` queries the knowledge base exactly
once, with `task.get('last_error', 'Unknown error')`, threshold 0.7 and limit
10, and never calls `report_error` itself. -/
theorem heal_effects_query (kb : KB) (cb : Callback) (L : Ledger) (now : ℚ)
    (task : Task) :
    (attemptSelfHealing kb cb L now task).2.kbQueries
      = [(lastErrorOf task, 7/10, 10)]
    ∧ (attemptSelfHealing kb cb L now task).2.reportedErrors = [] := by
  rcases hkb : kb (lastErrorOf task) with _ | ⟨s, ss⟩ <;>
    rcases h1 : cb 1 with e1 | b1 <;>
      simp [attemptSelfHealing, applySolution, hkb, h1]

/-- When the knowledge base returns at least one solution,
`_attempt_self_healing` re-invokes the callback exactly once and returns its
boolean outcome, with a raised exception giving `false`. -/
theorem heal_retry (kb : KB) (cb : Callback) (L : Ledger) (now : ℚ)
    (task : Task) (hkb : kb (lastErrorOf task) ≠ []) :
    (attemptSelfHealing kb cb L now task).1
      = (match cb 1 with | .ok b => b | .error _ => false)
    ∧ (attemptSelfHealing kb cb L now task).2.callbackCalls = 1 := by
  rcases hkb' : kb (lastErrorOf task) with _ | ⟨s, ss⟩
  · exact absurd hkb' hkb
  · rcases h1 : cb 1 with e1 | b1 <;>
      simp [attemptSelfHealing, applySolution, hkb', h1]

/-- `_attempt_self_healing` either leaves the Solution Ledger unchanged (no
candidate solutions) or appends exactly one attempt, timestamped `now`, to the
entry of `task.get('id')`, leaving every other entry unchanged. -/
theorem heal_ledger (kb : KB) (cb : Callback) (L : Ledger) (now : ℚ)
    (task : Task) :
    (attemptSelfHealing kb cb L now task).2.ledger = L
    ∨ ∃ a : SolutionAttempt, a.timestamp = now
        ∧ (attemptSelfHealing kb cb L now task).2.ledger task.id
            = L task.id ++ [a]
        ∧ ∀ k, k ≠ task.id →
            (attemptSelfHealing kb cb L now task).2.ledger k = L k := by
  rcases hkb : kb (lastErrorOf task) with _ | ⟨s, ss⟩
  · left
    simp [attemptSelfHealing, hkb]
  · right
    refine ⟨{ solutionId := s.id, timestamp := now, content := s.content },
      rfl, ?_, ?_⟩
    · rcases h1 : cb 1 with e1 | b1 <;>
        simp [attemptSelfHealing, applySolution, hkb, h1]
    · intro k hk
      rcases h1 : cb 1 with e1 | b1 <;>
        simp [attemptSelfHealing, applySolution, hkb, h1, hk]

/-- The ledger after `_execute_task_with_self_healing` is either the original
one (callback succeeded first time) or the one `_attempt_self_healing`
produced. -/
theorem execute_ledger (kb : KB) (cb : Callback) (L : Ledger) (now : ℚ)
    (task : Task) :
    (executeTaskWithSelfHealing kb cb L now task).2.ledger = L
    ∨ (executeTaskWithSelfHealing kb cb L now task).2.ledger
        = (attemptSelfHealing kb cb L now task).2.ledger := by
  rcases h0 : cb 0 with e | b
  · right
    simp [executeTaskWithSelfHealing, h0]
  · cases b
    · right
      simp [executeTaskWithSelfHealing, h0]
    · left
      simp [executeTaskWithSelfHealing, h0, Effects.base]

/-- Claim C1 as stated is false at a concrete input: with a callback that
returns `False`, the executor calls `report_error` zero times; and with a
callback that raises `"boom"` against a task whose `last_error` is
`"disk full"`, the knowledge base is queried with `"disk full"`, not with the
captured error text. -/
theorem C1_counterexample :
    (executeTaskWithSelfHealing (fun _ => []) (fun _ => Except.ok false)
        (fun _ => []) 0
        { id := some "t1", lastError := some "disk full" }).2.reportedErrors = []
    ∧ (executeTaskWithSelfHealing (fun _ => []) (fun _ => Except.error "boom")
        (fun _ => []) 0
        { id := some "t2", lastError := some "disk full" }).2.kbQueries
      = [("disk full", 7/10, 10)] := by
  exact ⟨rfl, rfl⟩

/-- Claim C1 (amended): when the callback raises, the executor reports the
captured exception text via `report_error(task.get('id'), str(e))`; when it
merely returns `False`, no error is reported.  In either failure case the
knowledge base is then queried exactly once, with
`task.get('last_error', 'Unknown error')` as the query string — not the
captured text — at threshold 0.7 and limit 10. -/
theorem C1_amended_report_and_query (kb : KB) (cb : Callback) (L : Ledger)
    (now : ℚ) (task : Task) (h0 : cb 0 ≠ Except.ok true) :
    (executeTaskWithSelfHealing kb cb L now task).2.reportedErrors
      = (match cb 0 with | .error e => [(task.id, e)] | _ => [])
    ∧ (executeTaskWithSelfHealing kb cb L now task).2.kbQueries
      = [(lastErrorOf task, 7/10, 10)] := by
  have hq := heal_effects_query kb cb L now task
  rcases h0' : cb 0 with e | b
  · simp [executeTaskWithSelfHealing, h0', hq.1, hq.2]
  · cases b
    · simp [executeTaskWithSelfHealing, h0', hq.1, hq.2]
    · exact absurd h0' h0

/-- Claim C1 (amended), evaluated: callback raising `"boom"` on a task with
`last_error = "disk full"` reports `("t9", "boom")` and queries the knowledge
base with `"disk full"`, threshold 0.7, limit 10. -/
theorem C1_amended_witness :
    (executeTaskWithSelfHealing (fun _ => []) (fun _ => Except.error "boom")
        (fun _ => []) 0
        { id := some "t9", lastError := some "disk full" }).2.reportedErrors
      = [(some "t9", "boom")]
    ∧ (executeTaskWithSelfHealing (fun _ => []) (fun _ => Except.error "boom")
        (fun _ => []) 0
        { id := some "t9", lastError := some "disk full" }).2.kbQueries
      = [("disk full", 7/10, 10)] := by
  have h := C1_amended_report_and_query (fun _ => []) (fun _ => Except.error "boom")
    (fun _ => []) 0 { id := some "t9", lastError := some "disk full" }
    (fun h => Except.noConfusion h)
  simpa [lastErrorOf] using h

/-- Claim C4: once healing found candidate solutions (and the first invocation
did not succeed), the executor re-invokes the callback exactly once more — two
invocations in total — returns the boolean outcome of that second invocation
(`false` when it raises), and the knowledge base is queried exactly once in
the whole execute call. -/
theorem C4_single_retry (kb : KB) (cb : Callback) (L : Ledger) (now : ℚ)
    (task : Task) (hkb : kb (lastErrorOf task) ≠ [])
    (h0 : cb 0 ≠ Except.ok true) :
    (executeTaskWithSelfHealing kb cb L now task).1
      = (match cb 1 with | .ok b => b | .error _ => false)
    ∧ (executeTaskWithSelfHealing kb cb L now task).2.callbackCalls = 2
    ∧ (executeTaskWithSelfHealing kb cb L now task).2.kbQueries.length = 1 := by
  have hr := heal_retry kb cb L now task hkb
  have hq := heal_effects_query kb cb L now task
  rcases h0' : cb 0 with e | b
  · refine ⟨?_, ?_, ?_⟩ <;>
      simp [executeTaskWithSelfHealing, h0', hr.1, hr.2, hq.1]
  · cases b
    · refine ⟨?_, ?_, ?_⟩ <;>
        simp [executeTaskWithSelfHealing, h0', hr.1, hr.2, hq.1]
    · exact absurd h0' h0

/-- Claim C4, evaluated: a callback failing once then succeeding, against a
knowledge base with one solution, yields success after exactly two invocations
and one knowledge-base query. -/
theorem C4_single_retry_witness :
    (executeTaskWithSelfHealing
        (fun _ => [{ id := some "sol-1", content := some "retry with backoff",
                     source := some "kb" }])
        (fun n => if n = 0 then Except.ok false else Except.ok true)
        (fun _ => []) 0
        { id := some "task-1", lastError := some "timeout" }).1 = true
    ∧ (executeTaskWithSelfHealing
        (fun _ => [{ id := some "sol-1", content := some "retry with backoff",
                     source := some "kb" }])
        (fun n => if n = 0 then Except.ok false else Except.ok true)
        (fun _ => []) 0
        { id := some "task-1", lastError := some "timeout" }).2.callbackCalls = 2
    ∧ (executeTaskWithSelfHealing
        (fun _ => [{ id := some "sol-1", content := some "retry with backoff",
                     source := some "kb" }])
        (fun n => if n = 0 then Except.ok false else Except.ok true)
        (fun _ => []) 0
        { id := some "task-1", lastError := some "timeout" }).2.kbQueries.length
      = 1 := by
  have h := C4_single_retry
    (fun _ => [{ id := some "sol-1", content := some "retry with backoff",
                 source := some "kb" }])
    (fun n => if n = 0 then Except.ok false else Except.ok true)
    (fun _ => []) 0
    { id := some "task-1", lastError := some "timeout" }
    (by simp) (by simp)
  simpa using h

/-- Claim C6: with an empty knowledge-base result the executor returns `false`
after the single initial callback invocation, never calls `apply_solution`
(no solution-application report is made) and leaves the Solution Ledger
untouched. -/
theorem C6_no_candidates (kb : KB) (cb : Callback) (L : Ledger) (now : ℚ)
    (task : Task) (hkb : kb (lastErrorOf task) = [])
    (h0 : cb 0 ≠ Except.ok true) :
    (executeTaskWithSelfHealing kb cb L now task).1 = false
    ∧ (executeTaskWithSelfHealing kb cb L now task).2.solutionReports = []
    ∧ (executeTaskWithSelfHealing kb cb L now task).2.callbackCalls = 1
    ∧ (executeTaskWithSelfHealing kb cb L now task).2.ledger = L := by
  rcases h0' : cb 0 with e | b
  · simp [executeTaskWithSelfHealing, attemptSelfHealing, h0', hkb]
  · cases b
    · simp [executeTaskWithSelfHealing, attemptSelfHealing, h0', hkb]
    · exact absurd h0' h0

/-- Claim C6, evaluated: with a raising callback and an empty knowledge base,
the executor returns `false`, makes no application report, invokes the
callback once, and the ledger is unchanged. -/
theorem C6_no_candidates_witness :
    (executeTaskWithSelfHealing (fun _ => []) (fun _ => Except.error "boom")
        (fun _ => []) 0
        { id := some "t3", lastError := none }).1 = false
    ∧ (executeTaskWithSelfHealing (fun _ => []) (fun _ => Except.error "boom")
        (fun _ => []) 0
        { id := some "t3", lastError := none }).2.solutionReports = []
    ∧ (executeTaskWithSelfHealing (fun _ => []) (fun _ => Except.error "boom")
        (fun _ => []) 0
        { id := some "t3", lastError := none }).2.callbackCalls = 1
    ∧ (executeTaskWithSelfHealing (fun _ => []) (fun _ => Except.error "boom")
        (fun _ => []) 0
        { id := some "t3", lastError := none }).2.ledger = (fun _ => []) := by
  exact C6_no_candidates (fun _ => []) (fun _ => Except.error "boom")
    (fun _ => []) 0 { id := some "t3", lastError := none } rfl
    (fun h => Except.noConfusion h)

/-- Claim C10: `apply_solution` unconditionally returns `True` and reports
`success=True` for every task id and solution, so whenever healing runs with a
nonempty candidate list the retry always happens — the executor's
failed-to-apply branch is dead code (two callback invocations always occur). -/
theorem C10_apply_always_true (L : Ledger) (now : ℚ) (tid : Option String)
    (sol : Solution) (kb : KB) (cb : Callback) (task : Task)
    (h1 : kb (lastErrorOf task) ≠ []) (h2 : cb 0 ≠ Except.ok true) :
    (applySolution L now tid sol).2.2 = true
    ∧ (applySolution L now tid sol).2.1 = [(tid, sol.id, true)]
    ∧ (executeTaskWithSelfHealing kb cb L now task).2.callbackCalls = 2 := by
  refine ⟨rfl, rfl, ?_⟩
  have hr := heal_retry kb cb L now task h1
  rcases h0' : cb 0 with e | b
  · simp [executeTaskWithSelfHealing, h0', hr.2]
  · cases b
    · simp [executeTaskWithSelfHealing, h0', hr.2]
    · exact absurd h0' h2

/-- Claim C10, evaluated at a concrete solution, task and failing callback. -/
theorem C10_apply_always_true_witness :
    (applySolution (fun _ => []) 5 (some "task-7")
        { id := some "sol-9", content := some "clear cache",
          source := some "kb" }).2.2 = true
    ∧ (applySolution (fun _ => []) 5 (some "task-7")
        { id := some "sol-9", content := some "clear cache",
          source := some "kb" }).2.1
      = [(some "task-7", some "sol-9", true)]
    ∧ (executeTaskWithSelfHealing
        (fun _ => [{ id := some "sol-9", content := some "clear cache",
                     source := some "kb" }])
        (fun _ => Except.ok false) (fun _ => []) 5
        { id := some "task-7", lastError := some "oom" }).2.callbackCalls
      = 2 := by
  exact C10_apply_always_true (fun _ => []) 5 (some "task-7")
    { id := some "sol-9", content := some "clear cache", source := some "kb" }
    (fun _ => [{ id := some "sol-9", content := some "clear cache",
                 source := some "kb" }])
    (fun _ => Except.ok false)
    { id := some "task-7", lastError := some "oom" }
    (by simp) (by simp)

/-- Claim C2 (evaluated at the failing input): the payload `"42"` is valid
JSON but not a dict, so `message_obj.get('taskId')` raises `AttributeError`
inside the `try` block; the `except` clause then itself raises `NameError`
(unbound name `trace`) before its `basic_nack` line, so the handler terminates
by exception with no channel action at all — the delivery is neither
acknowledged nor negatively-acknowledged. -/
theorem C2_nack_never_reached :
    (onMessage true "tasks.todo" "42" (.ok (.number 42)) (fun _ => none)
        (fun _ => []) (fun _ => Except.ok true) (fun _ => []) 0).1
      = .raised nameErrorMsg
    ∧ (onMessage true "tasks.todo" "42" (.ok (.number 42)) (fun _ => none)
        (fun _ => []) (fun _ => Except.ok true) (fun _ => []) 0).2.1 = [] :=
  ⟨rfl, rfl⟩

/-- Claim C3 as stated is false at a concrete input: an envelope whose
`delayUntil` exceeds the millisecond clock by half a millisecond
(`remaining = delayUntil - now = 1/2 > 0`) is not re-published —
`int(delay_until - time.time() * 1000)` truncates to `0`, the `0 < remaining`
guard fails, and the handler falls through to normal processing: the callback
runs and the delivery is acknowledged. -/
theorem C3_counterexample :
    ((1 : ℚ) / 2 - 1000 * 0 > 0)
    ∧ (onMessage true "tasks.todo" "m"
        (.ok (.obj [("taskId", Json.str "t1"),
                    ("delayUntil", Json.number (1 / 2))]))
        (fun _ => some { id := some "t1", lastError := none }) (fun _ => [])
        (fun _ => Except.ok true) (fun _ => []) 0).2.1 = [ChanAct.ack]
    ∧ (onMessage true "tasks.todo" "m"
        (.ok (.obj [("taskId", Json.str "t1"),
                    ("delayUntil", Json.number (1 / 2))]))
        (fun _ => some { id := some "t1", lastError := none }) (fun _ => [])
        (fun _ => Except.ok true) (fun _ => []) 0).2.2.callbackCalls = 1 := by
  have hfl : ⌊((2 : ℚ))⁻¹⌋ = 0 := by
    rw [Int.floor_eq_iff]
    norm_num
  refine ⟨by norm_num, ?_, ?_⟩ <;>
    simp [onMessage, decodeEnvelope, delayGate, pyGet, List.lookup,
      Json.truthy, Json.asComparableNum, hfl, executeTaskWithSelfHealing,
      Effects.base]

/-- Claim C3 (amended): when the envelope carries a numeric `delayUntil` at
least one whole millisecond ahead of the clock (`1 ≤ delayUntil - now`, so the
truncated remaining delay is positive), the handler re-publishes the identical
payload to the same routing key with an `x-delay` of
`int(delayUntil - now)` milliseconds as a persistent message, nacks the
original without requeue, and stops: the callback is never invoked and the
ledger is untouched.  Sub-millisecond remainders instead truncate to zero and
the delivery is processed immediately (see the counterexample). -/
theorem C3_amended_delay_republish (routingKey text : String)
    (fields : List (String × Json)) (fetch : Option Json → Option Task)
    (kb : KB) (cb : Callback) (L : Ledger) (now d : ℚ) (hnow : 0 ≤ now)
    (hdu : pyGet fields "delayUntil" = some (Json.number d))
    (hfut : 1 ≤ d - 1000 * now) :
    (onMessage true routingKey text (.ok (.obj fields)) fetch kb cb L now).1
      = .completed
    ∧ (onMessage true routingKey text (.ok (.obj fields)) fetch kb cb L now).2.1
      = [.publish routingKey text ⌊d - 1000 * now⌋ true, .nackNoRequeue]
    ∧ (onMessage true routingKey text (.ok (.obj fields)) fetch kb cb L
        now).2.2.callbackCalls = 0
    ∧ (onMessage true routingKey text (.ok (.obj fields)) fetch kb cb L
        now).2.2.ledger = L := by
  have hd0 : 1000 * now < d := by linarith
  have htr : d ≠ 0 := ne_of_gt (by linarith)
  have hfl : 0 < ⌊d - 1000 * now⌋ := by
    have h1 : (1 : ℤ) ≤ ⌊d - 1000 * now⌋ := Int.le_floor.mpr (by exact_mod_cast hfut)
    omega
  refine ⟨?_, ?_, ?_, ?_⟩ <;>
    simp [onMessage, decodeEnvelope, delayGate, hdu, Json.truthy,
      Json.asComparableNum, htr, hd0, hfl, Effects.base]

/-- Claim C3 (amended), evaluated: `delayUntil = 5000` ms against clock 0
republishes with `x-delay = 5000` and discards the original without requeue,
invoking nothing. -/
theorem C3_amended_witness :
    (onMessage true "tasks.todo" "m5"
        (.ok (.obj [("taskId", Json.str "t5"),
                    ("delayUntil", Json.number 5000)]))
        (fun _ => some { id := some "t5", lastError := none }) (fun _ => [])
        (fun _ => Except.ok true) (fun _ => []) 0).1 = .completed
    ∧ (onMessage true "tasks.todo" "m5"
        (.ok (.obj [("taskId", Json.str "t5"),
                    ("delayUntil", Json.number 5000)]))
        (fun _ => some { id := some "t5", lastError := none }) (fun _ => [])
        (fun _ => Except.ok true) (fun _ => []) 0).2.1
      = [.publish "tasks.todo" "m5" ⌊(5000 : ℚ) - 1000 * 0⌋ true,
         .nackNoRequeue]
    ∧ (onMessage true "tasks.todo" "m5"
        (.ok (.obj [("taskId", Json.str "t5"),
                    ("delayUntil", Json.number 5000)]))
        (fun _ => some { id := some "t5", lastError := none }) (fun _ => [])
        (fun _ => Except.ok true) (fun _ => []) 0).2.2.callbackCalls = 0
    ∧ (onMessage true "tasks.todo" "m5"
        (.ok (.obj [("taskId", Json.str "t5"),
                    ("delayUntil", Json.number 5000)]))
        (fun _ => some { id := some "t5", lastError := none }) (fun _ => [])
        (fun _ => Except.ok true) (fun _ => []) 0).2.2.ledger = (fun _ => []) :=
  C3_amended_delay_republish "tasks.todo" "m5"
    [("taskId", Json.str "t5"), ("delayUntil", Json.number 5000)]
    (fun _ => some { id := some "t5", lastError := none }) (fun _ => [])
    (fun _ => Except.ok true) (fun _ => []) 0 5000 (le_refl 0) rfl (by norm_num)

/-- Claim C5: for a delivery that decodes and passes the delay gate, failed
task resolution nacks with requeue and never invokes the callback; successful
resolution acknowledges exactly when the Self-Healing Executor returns true
and nacks with requeue exactly when it returns false. -/
theorem C5_ack_discipline (routingKey text : String) (parsed : ParseResult)
    (fetch : Option Json → Option Task) (kb : KB) (cb : Callback) (L : Ledger)
    (now : ℚ) (taskKey delayU : Option Json) (task : Task)
    (hdec : decodeEnvelope text parsed = .ok taskKey delayU)
    (hdelay : delayGate delayU now = .proceed) :
    (fetch taskKey = none →
      (onMessage true routingKey text parsed fetch kb cb L now).2.1
        = [.nackRequeue]
      ∧ (onMessage true routingKey text parsed fetch kb cb L
          now).2.2.callbackCalls = 0)
    ∧ (fetch taskKey = some task →
        ((onMessage true routingKey text parsed fetch kb cb L now).2.1 = [.ack]
          ↔ (executeTaskWithSelfHealing kb cb L now task).1 = true)
        ∧ ((onMessage true routingKey text parsed fetch kb cb L now).2.1
            = [.nackRequeue]
          ↔ (executeTaskWithSelfHealing kb cb L now task).1 = false)) := by
  constructor
  · intro hf
    constructor <;> simp [onMessage, hdec, hdelay, hf, Effects.base]
  · intro hf
    rcases hres : (executeTaskWithSelfHealing kb cb L now task).1 <;>
      constructor <;> simp [onMessage, hdec, hdelay, hf, hres]

/-- Claim C5, evaluated: a bare-identifier delivery whose task resolves and
whose callback succeeds is acknowledged (and not requeued). -/
theorem C5_ack_discipline_witness :
    ((fun (_ : Option Json) => some (Task.mk (some "t1") none))
        (some (Json.str "t1")) = none →
      (onMessage true "tasks.todo" "t1" ParseResult.jsonDecodeError
        (fun _ => some (Task.mk (some "t1") none)) (fun _ => [])
        (fun _ => Except.ok true) (fun _ => []) 0).2.1 = [.nackRequeue]
      ∧ (onMessage true "tasks.todo" "t1" ParseResult.jsonDecodeError
          (fun _ => some (Task.mk (some "t1") none)) (fun _ => [])
          (fun _ => Except.ok true) (fun _ => []) 0).2.2.callbackCalls = 0)
    ∧ ((fun (_ : Option Json) => some (Task.mk (some "t1") none))
        (some (Json.str "t1")) = some (Task.mk (some "t1") none) →
        ((onMessage true "tasks.todo" "t1" ParseResult.jsonDecodeError
            (fun _ => some (Task.mk (some "t1") none)) (fun _ => [])
            (fun _ => Except.ok true) (fun _ => []) 0).2.1 = [.ack]
          ↔ (executeTaskWithSelfHealing (fun _ => [])
              (fun _ => Except.ok true) (fun _ => []) 0
              (Task.mk (some "t1") none)).1 = true)
        ∧ ((onMessage true "tasks.todo" "t1" ParseResult.jsonDecodeError
            (fun _ => some (Task.mk (some "t1") none)) (fun _ => [])
            (fun _ => Except.ok true) (fun _ => []) 0).2.1 = [.nackRequeue]
          ↔ (executeTaskWithSelfHealing (fun _ => [])
              (fun _ => Except.ok true) (fun _ => []) 0
              (Task.mk (some "t1") none)).1 = false)) :=
  C5_ack_discipline "tasks.todo" "t1" ParseResult.jsonDecodeError
    (fun _ => some (Task.mk (some "t1") none)) (fun _ => [])
    (fun _ => Except.ok true) (fun _ => []) 0 (some (Json.str "t1")) none
    (Task.mk (some "t1") none) rfl rfl

/-- Claim C7 as stated is false at a concrete input: the payload `"[1, 2]"`
is valid UTF-8 and valid JSON but not an object, so the codec neither treats
it as a bare identifier nor succeeds — `.get('taskId')` raises
`AttributeError`, and the handler terminates by the `except`-clause
`NameError`. -/
theorem C7_counterexample :
    decodeEnvelope "[1, 2]" (.ok (.arr [Json.number 1, Json.number 2]))
      = DecodeResult.attributeError
    ∧ (onMessage true "tasks.todo" "[1, 2]"
        (.ok (.arr [Json.number 1, Json.number 2])) (fun _ => none)
        (fun _ => []) (fun _ => Except.ok true) (fun _ => []) 0).1
      = .raised nameErrorMsg := ⟨rfl, rfl⟩

/-- Claim C7 (amended): envelope decoding is total over every payload that
either fails to parse as JSON (the whole decoded text becomes the bare task
identifier, with no delay) or parses to a JSON object; but for a payload that
parses to valid non-object JSON the codec itself fails with `AttributeError`,
so decoding does have an error condition beyond the malformed-JSON case. -/
theorem C7_amended_codec (text : String) (parsed : ParseResult)
    (h : ∀ v, parsed = .ok v → ∃ fields, v = .obj fields) :
    decodeEnvelope text parsed ≠ DecodeResult.attributeError
    ∧ (parsed = .jsonDecodeError →
        decodeEnvelope text parsed = .ok (some (.str text)) none) := by
  cases parsed with
  | jsonDecodeError =>
    exact ⟨fun hc => DecodeResult.noConfusion hc, fun _ => rfl⟩
  | ok v =>
    obtain ⟨fields, rfl⟩ := h v rfl
    exact ⟨fun hc => DecodeResult.noConfusion hc,
      fun hh => ParseResult.noConfusion hh⟩

/-- Claim C7 (amended), evaluated on the spec's bare-identifier example
payload `"task-103"`. -/
theorem C7_amended_codec_witness :
    decodeEnvelope "task-103" ParseResult.jsonDecodeError
      ≠ DecodeResult.attributeError
    ∧ (ParseResult.jsonDecodeError = ParseResult.jsonDecodeError →
        decodeEnvelope "task-103" ParseResult.jsonDecodeError
          = .ok (some (.str "task-103")) none) :=
  C7_amended_codec "task-103" ParseResult.jsonDecodeError
    (fun _ h => ParseResult.noConfusion h)

/-- Claim C8: `get_task_details` yields the parsed task on a 200 response,
`None` on every non-2xx status and on every transport exception; being a total
function of the HTTP outcome, it never raises to its caller. -/
theorem C8_resolver_never_raises (status : ℕ) (body : Option Task) (t : Task)
    (m : String) (h : status < 200 ∨ 300 ≤ status) :
    getTaskDetails (.response status body) = none
    ∧ getTaskDetails (.response 200 (some t)) = some t
    ∧ getTaskDetails (.transportError m) = none := by
  have h200 : status ≠ 200 := by omega
  exact ⟨by simp [getTaskDetails, h200], rfl, rfl⟩

/-- Claim C8, evaluated: a 404 response and a timeout both yield `None`, and a
200 response yields the parsed task. -/
theorem C8_resolver_never_raises_witness :
    getTaskDetails (.response 404 none) = none
    ∧ getTaskDetails (.response 200 (some (Task.mk (some "t1") none)))
      = some (Task.mk (some "t1") none)
    ∧ getTaskDetails (.transportError "timeout") = none :=
  C8_resolver_never_raises 404 none (Task.mk (some "t1") none) "timeout"
    (by omega)

/-- Claim C9: across one whole delivery-handling step (hence across every SDK
operation it contains), the Solution Ledger is append-only — either every
task's attempt sequence is unchanged, or exactly one task's sequence is
extended by exactly one attempt record timestamped `now`, all others
unchanged.  No attempt is ever removed or reordered. -/
theorem C9_ledger_append_only (running : Bool) (routingKey text : String)
    (parsed : ParseResult) (fetch : Option Json → Option Task) (kb : KB)
    (cb : Callback) (L : Ledger) (now : ℚ) :
    (∀ k, (onMessage running routingKey text parsed fetch kb cb L
        now).2.2.ledger k = L k)
    ∨ ∃ tid a, a.timestamp = now
        ∧ (onMessage running routingKey text parsed fetch kb cb L
            now).2.2.ledger tid = L tid ++ [a]
        ∧ ∀ k, k ≠ tid →
            (onMessage running routingKey text parsed fetch kb cb L
              now).2.2.ledger k = L k := by
  cases running with
  | false => left; intro k; rfl
  | true =>
    cases hdec : decodeEnvelope text parsed with
    | attributeError => left; intro k; simp [onMessage, hdec, Effects.base]
    | ok taskKey delayU =>
      cases hdel : delayGate delayU now with
      | typeError => left; intro k; simp [onMessage, hdec, hdel, Effects.base]
      | republish r =>
        left; intro k; simp [onMessage, hdec, hdel, Effects.base]
      | proceed =>
        cases hf : fetch taskKey with
        | none => left; intro k; simp [onMessage, hdec, hdel, hf, Effects.base]
        | some task =>
          rcases execute_ledger kb cb L now task with hE | hE
          · left; intro k; simp [onMessage, hdec, hdel, hf, hE]
          · rcases heal_ledger kb cb L now task with hH | hH
            · left; intro k; simp [onMessage, hdec, hdel, hf, hE, hH]
            · obtain ⟨a, hts, hat, hother⟩ := hH
              right
              refine ⟨task.id, a, hts, ?_, ?_⟩
              · simp [onMessage, hdec, hdel, hf, hE, hat]
              · intro k hk
                simp [onMessage, hdec, hdel, hf, hE, hother k hk]

end DevArt
